import Mathlib

/-!
# Verification of the Space Invaders emulator core

Shallow embedding of `src/space_invaders_core.c` (Space-Invaders-Emulator).
Machine integers are modelled as `Nat` with explicit `% 2^w` where the C
types force truncation; the C `float` field `speed_multiplier` is modelled
as `ℚ` (so `== 0.0f` becomes `= 0`); the 8080 CPU core (`8080Core.c`,
`8080Memory.c`) is not part of this repository's sources, so the pieces of
it that the claims need are either universally quantified (the instruction
engine driving `si_step_frame`) or modelled from the specification
(`reset8080`), as marked on each definition.
-/

namespace SpaceInvaders

/-- The configuration record `si_config_t` from `space_invaders_core.h`.
`speed_multiplier` is a C `float`, modelled as `ℚ`. -/
structure si_config_t where
  headless : Bool
  speed_multiplier : ℚ
  uncapped : Bool
  dip0 : Nat
  dip1 : Nat
  dip2 : Nat
deriving DecidableEq

/-- The emulator state `si_state_t` from `space_invaders_core.h`:
ARGB framebuffer bytes, 16-bit hardware shift register, shift offset,
input latch byte, 32-bit frame counter, 64-bit cycle counter,
initialized flag and configuration. -/
structure si_state_t where
  screen_buf : List Nat
  shift_reg : Nat
  shift_offset : Nat
  input_state : Nat
  frame_count : Nat
  cycle_count : Nat
  initialized : Bool
  config : si_config_t
deriving DecidableEq

/-- `si_port_in` from `space_invaders_core.c`: port 0 and 2 read DIP switch
bytes, port 1 the input latch, port 3 the shift register shifted right by
`8 - shift_offset` and truncated to a `uint8_t`; other ports read 0. -/
def si_port_in (s : si_state_t) (port : Int) : Nat :=
  if port = 0 then s.config.dip0
  else if port = 1 then s.input_state
  else if port = 2 then s.config.dip2
  else if port = 3 then ((s.shift_reg % 65536) >>> (8 - s.shift_offset)) % 256
  else 0

/-- `si_port_out` from `space_invaders_core.c`: port 2 stores the low 3 bits
of the value as the shift offset; port 4 shifts the 16-bit register right by
8 and inserts the written byte as its new high byte; ports 3, 5, 6 and all
others have no effect. -/
def si_port_out (port : Int) (value : Nat) (s : si_state_t) : si_state_t :=
  if port = 2 then { s with shift_offset := (value % 256) &&& 7 }
  else if port = 4 then
    { s with shift_reg := ((s.shift_reg % 65536) >>> 8) ||| ((value % 256) <<< 8) }
  else s

/-- `si_set_input` from `space_invaders_core.c`:
`si_state.input_state = (buttons & 0x77) | 0x08`. -/
def si_set_input (buttons : Nat) (s : si_state_t) : si_state_t :=
  { s with input_state := ((buttons % 256) &&& 0x77) ||| 0x08 }

/-- `si_get_input` from `space_invaders_core.c`: returns the latch verbatim. -/
def si_get_input (s : si_state_t) : Nat :=
  s.input_state

/-- `si_set_speed` from `space_invaders_core.c`: stores the multiplier and,
when it compares equal to `0.0f`, additionally sets `config.uncapped`. -/
def si_set_speed (multiplier : ℚ) (s : si_state_t) : si_state_t :=
  let s1 := { s with config := { s.config with speed_multiplier := multiplier } }
  if multiplier = 0 then { s1 with config := { s1.config with uncapped := true } }
  else s1

/-- `si_set_uncapped` from `space_invaders_core.c`. -/
def si_set_uncapped (uncapped : Bool) (s : si_state_t) : si_state_t :=
  { s with config := { s.config with uncapped := uncapped } }

/-- A fixed concrete emulator state (the all-zero state with default
configuration), used as the concrete base point of witnesses. -/
def siState0 : si_state_t :=
  { screen_buf := []
    shift_reg := 0
    shift_offset := 0
    input_state := 0x08
    frame_count := 0
    cycle_count := 0
    initialized := true
    config :=
      { headless := false
        speed_multiplier := 1
        uncapped := false
        dip0 := 0x0E
        dip1 := 0x08
        dip2 := 0x00 } }

/-! ## Address space

The core registers two banks (`si_init_with_config`): a read-only ROM bank
covering `0x0000`–`0x1FFF` and a read-write RAM bank covering
`SI_RAM_START = 0x2000` to `0x2000 + SI_RAM_SIZE` with
`SI_RAM_SIZE = 0x2000`.  `readByte`/`writeByte` resolve an address to the
covering bank; writes to the read-only bank or to unmapped addresses are
silently discarded and reads of unmapped addresses return `0x00`
(spec §4.1; `8080Memory.c` itself is not under `src/`, but every claim
below only touches the RAM bank, whose behaviour the loops in
`space_invaders_core.c` fix). -/

/-- The registered memory banks: the 8 KiB read-only ROM bank at `0x0000`
and the 8 KiB read-write RAM bank at `0x2000`. -/
structure MemBanks where
  rom : List Nat
  ram : List Nat
deriving DecidableEq

/-- `readByte`: resolve the covering bank; unmapped addresses read `0x00`. -/
def readByte (m : MemBanks) (addr : Nat) : Nat :=
  if addr < 0x2000 then m.rom.getD addr 0
  else if addr < 0x4000 then m.ram.getD (addr - 0x2000) 0
  else 0

/-- `writeByte`: writes to the read-only ROM bank and to unmapped addresses
are silently discarded; writes inside the RAM bank store the byte. -/
def writeByte (v : Nat) (addr : Nat) (m : MemBanks) : MemBanks :=
  if 0x2000 ≤ addr ∧ addr < 0x4000 then
    { m with ram := m.ram.set (addr - 0x2000) (v % 256) }
  else m

/-! ## Observation extractor (`space_invaders_core.c`) -/

/-- `si_get_lives`: reserve ships at `0x21FF` plus 1 if the alive flag at
`0x20E7` is non-zero; a total above 6 is reported as 0. -/
def si_get_lives (m : MemBanks) : Nat :=
  let ships_remaining := readByte m 0x21FF
  let player_alive := readByte m 0x20E7
  let total_lives := ships_remaining + (if player_alive ≠ 0 then 1 else 0)
  if total_lives > 6 then 0 else total_lives

/-- `si_get_player_shot`: returns the status byte at `0x2025`
(`plyrShotStatus`) and writes x from `0x202A`, y from `0x2029`;
modelled as the triple (status, x, y). -/
def si_get_player_shot (m : MemBanks) : Nat × Nat × Nat :=
  (readByte m 0x2025, readByte m 0x202A, readByte m 0x2029)

/-- `si_get_rolling_shot`: reads y from `0x203D` and x from `0x203E` and
returns 1 iff y is non-zero; modelled as the triple (active, x, y). -/
def si_get_rolling_shot (m : MemBanks) : Nat × Nat × Nat :=
  let shot_y := readByte m 0x203D
  let shot_x := readByte m 0x203E
  (if shot_y ≠ 0 then 1 else 0, shot_x, shot_y)

/-- `si_get_plunger_shot`: y from `0x204D`, x from `0x204E`. -/
def si_get_plunger_shot (m : MemBanks) : Nat × Nat × Nat :=
  let shot_y := readByte m 0x204D
  let shot_x := readByte m 0x204E
  (if shot_y ≠ 0 then 1 else 0, shot_x, shot_y)

/-- `si_get_squiggly_shot`: y from `0x205D`, x from `0x205E`. -/
def si_get_squiggly_shot (m : MemBanks) : Nat × Nat × Nat :=
  let shot_y := readByte m 0x205D
  let shot_x := readByte m 0x205E
  (if shot_y ≠ 0 then 1 else 0, shot_x, shot_y)

/-- `si_get_ufo_active`: reads the `saucerActive` byte at `0x2084`; only when
it is non-zero does it overwrite the caller's x/y locations (with the bytes
at `0x207C` and `0x207B`).  The caller's locations are modelled by their
prior contents `x0`, `y0`; the result is (returned flag, x location, y
location) after the call. -/
def si_get_ufo_active (m : MemBanks) (x0 y0 : Nat) : Bool × Nat × Nat :=
  let active := readByte m 0x2084 ≠ 0
  if active then (true, readByte m 0x207C, readByte m 0x207B)
  else (false, x0, y0)

/-! ## CPU state and reset -/

/-- Modelled from the spec: the `e8080` CPU register file of `8080Core.c`,
which is not under `src/`.  Spec §3/§4.2: six general-purpose 8-bit
registers, a 16-bit stack pointer and program counter, five status flags,
an interrupt-enable flag and a halted flag. -/
structure CpuState where
  b : Nat
  c : Nat
  d : Nat
  e : Nat
  h : Nat
  l : Nat
  sp : Nat
  pc : Nat
  sign : Bool
  zero : Bool
  parity : Bool
  carry : Bool
  aux : Bool
  ie : Bool
  halted : Bool
deriving DecidableEq

/-- Modelled from the spec: `reset8080(vector)` of `8080Core.c` (not under
`src/`), per §4.2: "Initial state on reset: registers cleared, program
counter set to a caller-supplied reset vector, interrupt-enable cleared,
halted = false." -/
def reset8080 (vector : Nat) : CpuState :=
  { b := 0, c := 0, d := 0, e := 0, h := 0, l := 0
    sp := 0, pc := vector % 65536
    sign := false, zero := false, parity := false, carry := false
    aux := false, ie := false, halted := false }

/-- The whole machine visible to `si_reset`: CPU register file, emulator
state and the memory banks. -/
structure SiMachine where
  cpu : CpuState
  si : si_state_t
  mem : MemBanks
deriving DecidableEq

/-- The RAM-clearing loop of `si_reset`:
`for (addr = SI_RAM_START; addr < SI_RAM_START + SI_RAM_SIZE; addr++)
writeByte(0x00, addr)`. -/
def si_clear_ram (m : MemBanks) : MemBanks :=
  (List.range 0x2000).foldl (fun acc i => writeByte 0 (0x2000 + i) acc) m

/-- `si_reset` from `space_invaders_core.c`: resets the CPU via
`reset8080(0x0001)` (the saved/restored `ram`/`portIn`/`portOut` pointers
have no counterpart in the pure model), resets the hardware state fields,
clears the RAM bank by the `writeByte` loop, and finally sets `e8080.IE = 1`. -/
def si_reset (st : SiMachine) : SiMachine :=
  { cpu := { reset8080 0x0001 with ie := true }
    si := { st.si with
              shift_reg := 0
              shift_offset := 0
              input_state := 0x08
              frame_count := 0
              cycle_count := 0 }
    mem := si_clear_ram st.mem }

/-! ## Frame scheduler -/

/-- One externally visible action of `si_step_frame` on the CPU engine:
an `emulate8080(budget)` burst that consumed some cycles, or a
`causeInt(vector)` interrupt request. -/
inductive SiEvent where
  | emulate (budget : Nat) (consumed : Nat)
  | interrupt (vector : Nat)
deriving DecidableEq

/-- The 8080 instruction engine of `8080Core.c` is not under `src/`; it is
abstracted as an arbitrary state type `σ` with `emulate : σ → budget →
(consumed cycles, new state)` and `causeInt : σ → vector → new state`, so
theorems about `si_step_frame` quantify over every possible engine
behaviour. -/
structure CpuEngine (σ : Type) where
  emulate : σ → Nat → Nat × σ
  causeInt : σ → Nat → σ

/-- `si_step_frame` from `space_invaders_core.c`: burst of
`half_frame_cycles = 17066`, `causeInt(8)`, second burst, `causeInt(16)`,
then `frame_count++` (a `uint32_t`) and `cycle_count += cycles1 + cycles2`
(a `uint64_t`); returns `cycles1 + cycles2`.  The result also carries the
transcript of the four engine calls in the order the code makes them. -/
def si_step_frame {σ : Type} (E : CpuEngine σ) (c : σ) (s : si_state_t) :
    Nat × σ × si_state_t × List SiEvent :=
  let half_frame_cycles := 17066
  let r1 := E.emulate c half_frame_cycles
  let cA := E.causeInt r1.2 8
  let r2 := E.emulate cA half_frame_cycles
  let cB := E.causeInt r2.2 16
  let s1 := { s with
                frame_count := (s.frame_count + 1) % 2 ^ 32
                cycle_count := (s.cycle_count + (r1.1 + r2.1)) % 2 ^ 64 }
  (r1.1 + r2.1, cB, s1,
    [SiEvent.emulate half_frame_cycles r1.1, SiEvent.interrupt 8,
     SiEvent.emulate half_frame_cycles r2.1, SiEvent.interrupt 16])

/-! ## State persistence

`si_save_state`/`si_load_state` treat the `e8080` struct and the `si_state`
struct as opaque byte blobs (`fwrite(&e8080, sizeof(e8080), 1, fp)` etc.),
so they are modelled at the byte level: `LiveState` holds the raw bytes of
the CPU struct, the raw bytes of the emulator-state struct, and the RAM
bank's bytes.  The struct sizes (`sizeof(e8080)` is fixed by `8080Core.h`,
which is not under `src/`) are abstracted as the lengths of the two byte
sections, which `fread` replaces wholesale on a full read. -/

/-- The live state touched by save/load: the bytes of `e8080`, the bytes of
`si_state`, and the RAM bank contents in ascending address order. -/
structure LiveState where
  cpuBytes : List Nat
  machBytes : List Nat
  ramBytes : List Nat
deriving DecidableEq

/-- The 4-byte magic tag `"SI80"`. -/
def siMagic : List Nat := [0x53, 0x49, 0x38, 0x30]

/-- The 4-byte little-endian encoding of format version 1. -/
def siVersion1 : List Nat := [1, 0, 0, 0]

/-- `si_save_state` from `space_invaders_core.c`, as the byte blob it
writes: magic tag, version, the `e8080` bytes, the `si_state` bytes, then
the RAM bytes read in ascending address order. -/
def si_save_state (live : LiveState) : List Nat :=
  siMagic ++ siVersion1 ++ live.cpuBytes ++ live.machBytes ++ live.ramBytes

/-- One `fread` of an `n`-byte record: succeeds (returning the record and
the rest of the file) only when `n` bytes remain. -/
def readRecord (file : List Nat) (n : Nat) : Option (List Nat × List Nat) :=
  if n ≤ file.length then some (file.take n, file.drop n) else none

/-- The RAM-reading loop of `si_load_state`: one byte per RAM address,
each written with `writeByte` as soon as it is read, failing (with the
prefix already committed) when the file runs short. -/
def loadRamLoop : List Nat → List Nat → Bool × List Nat
  | _, [] => (true, [])
  | [], b :: rest => (false, b :: rest)
  | f :: fs, _ :: rest =>
    let p := loadRamLoop fs rest
    (p.1, f % 256 :: p.2)

/-- `si_load_state` from `space_invaders_core.c`.  `file = none` models an
unopenable file.  The magic tag and version are validated first; then the
`e8080` bytes, the `si_state` bytes and the RAM bytes are committed in that
order, each as soon as its own read succeeds, so a later short read leaves
the earlier sections already overwritten.  Returns the C result code
(0 success, -1 failure) and the live state after the call. -/
def si_load_state (file : Option (List Nat)) (live : LiveState) :
    Int × LiveState :=
  match file with
  | none => (-1, live)
  | some f =>
    match readRecord f 4 with
    | none => (-1, live)
    | some (magic, r1) =>
      if magic ≠ siMagic then (-1, live)
      else
        match readRecord r1 4 with
        | none => (-1, live)
        | some (version, r2) =>
          if version ≠ siVersion1 then (-1, live)
          else
            match readRecord r2 live.cpuBytes.length with
            | none => (-1, live)
            | some (cpu, r3) =>
              match readRecord r3 live.machBytes.length with
              | none => (-1, { live with cpuBytes := cpu })
              | some (mach, r4) =>
                let p := loadRamLoop r4 live.ramBytes
                (if p.1 then 0 else -1,
                  { cpuBytes := cpu, machBytes := mach, ramBytes := p.2 })

/-! ## Helper lemmas -/

/-- `writeByte` never changes the ROM bank. -/
theorem writeByte_rom (v a : Nat) (m : MemBanks) : (writeByte v a m).rom = m.rom := by
  unfold writeByte
  split <;> rfl

/-- Setting position `l₁.length` in `l₁ ++ l₂` sets position 0 of `l₂`. -/
theorem set_append_len {α : Type} (l₁ l₂ : List α) (a : α) (n : Nat)
    (h : n = l₁.length) : (l₁ ++ l₂).set n a = l₁ ++ l₂.set 0 a := by
  subst h
  induction l₁ with
  | nil => simp
  | cons x xs ih => simp [List.set, ih]

/-- After `n ≤ 8192` iterations, the RAM-clearing loop of `si_reset` has
zeroed exactly the first `n` RAM bytes. -/
theorem clear_loop_ram (n : Nat) (hn : n ≤ 8192) (m : MemBanks)
    (hm : m.ram.length = 8192) :
    ((List.range n).foldl (fun acc i => writeByte 0 (0x2000 + i) acc) m).ram
      = List.replicate n 0 ++ m.ram.drop n := by
  induction n with
  | zero => simp
  | succ k ih =>
    rw [List.range_succ, List.foldl_append]
    have hk : k ≤ 8192 := by omega
    set prev := (List.range k).foldl (fun acc i => writeByte 0 (0x2000 + i) acc) m with hprev
    have hram : prev.ram = List.replicate k 0 ++ m.ram.drop k := ih hk
    simp only [List.foldl_cons, List.foldl_nil]
    unfold writeByte
    have hcond : 0x2000 ≤ 0x2000 + k ∧ 0x2000 + k < 0x4000 := by omega
    rw [if_pos hcond]
    simp only [Nat.add_sub_cancel_left, Nat.zero_mod]
    rw [hram]
    have hklen : k < m.ram.length := by omega
    have hdrop := List.drop_eq_getElem_cons hklen
    rw [set_append_len _ _ _ _ (by simp), hdrop]
    simp only [List.set]
    rw [List.replicate_succ', List.append_assoc]
    rfl

/-- The RAM-clearing loop of `si_reset` never changes the ROM bank. -/
theorem clear_loop_rom (n : Nat) (m : MemBanks) :
    ((List.range n).foldl (fun acc i => writeByte 0 (0x2000 + i) acc) m).rom = m.rom := by
  induction n with
  | zero => simp
  | succ k ih =>
    rw [List.range_succ, List.foldl_append]
    simp only [List.foldl_cons, List.foldl_nil]
    rw [writeByte_rom]
    exact ih

/-- A full-length `fread` of an `a.length`-byte record from `a ++ b`
returns `a` and leaves `b`. -/
theorem readRecord_append (a b : List Nat) :
    readRecord (a ++ b) a.length = some (a, b) := by
  unfold readRecord
  rw [if_pos (by simp)]
  rw [List.take_left, List.drop_left]

/-- Loading a RAM image of exactly the RAM's length succeeds and installs
it verbatim. -/
theorem loadRamLoop_exact (f r : List Nat) (h : f.length = r.length)
    (hb : ∀ x ∈ f, x < 256) : loadRamLoop f r = (true, f) := by
  induction f generalizing r with
  | nil =>
    cases r with
    | nil => rfl
    | cons y ys => simp at h
  | cons x xs ih =>
    cases r with
    | nil => simp at h
    | cons y ys =>
      have hx : x < 256 := hb x (by simp)
      have hxs : ∀ z ∈ xs, z < 256 := fun z hz => hb z (by simp [hz])
      have hlen : xs.length = ys.length := by simpa using h
      show (let p := loadRamLoop xs ys; (p.1, x % 256 :: p.2)) = (true, x :: xs)
      rw [ih ys hlen hxs]
      simp [Nat.mod_eq_of_lt hx]

/-! ## Claim C1 (corrected) -/

/-- Claim C1, counterexample: the claim asserts that with offset 0, writing
0xAA to port 4 and reading port 3 returns `(0xAA <<< 0) >>> 8 = 0x00`; the
code actually returns 0xAA (the port-3 read is
`shift_reg >> (8 - offset)` truncated to a `uint8_t`, i.e. the LOW byte of
`v <<< k`, not the high one). -/
theorem si_port3_read_claim_counterexample :
    si_port_in (si_port_out 4 0xAA (si_port_out 2 0 siState0)) 3 = 0xAA ∧
    si_port_in (si_port_out 4 0xAA (si_port_out 2 0 siState0)) 3 ≠
      ((0xAA <<< 0) >>> 8) % 256 := by
  decide

/-- Claim C1, amended: starting from a shift register whose high byte is 0
(`shift_reg < 256` as a `uint16_t`), writing offset `k` (0–7) to port 2,
then byte `v` to port 4, then reading port 3 returns `(v <<< k)` truncated
to 8 bits — the low byte of `v * 2^k`, not `(v <<< k) >>> 8`. -/
theorem si_shift_register_roundtrip (s : si_state_t) (k v : Nat)
    (hreg : s.shift_reg < 256) (hk : k < 8) (hv : v < 256) :
    si_port_in (si_port_out 4 v (si_port_out 2 k s)) 3 = (v <<< k) % 256 := by
  have hk' : (k % 256) &&& 7 = k := by
    have h : k % 256 = k := Nat.mod_eq_of_lt (by omega)
    rw [h]
    have h2 := Nat.and_pow_two_sub_one_eq_mod k 3
    norm_num at h2
    rw [h2, Nat.mod_eq_of_lt hk]
  simp only [si_port_out, si_port_in]
  norm_num [hk']
  have hv' : v % 256 = v := Nat.mod_eq_of_lt hv
  have hs : s.shift_reg % 65536 = s.shift_reg := Nat.mod_eq_of_lt (by omega)
  rw [hv', hs]
  have hz : s.shift_reg >>> 8 = 0 := by
    rw [Nat.shiftRight_eq_div_pow]
    exact Nat.div_eq_of_lt (by omega)
  rw [hz, Nat.zero_or]
  have hlt : v <<< 8 < 65536 := by
    rw [Nat.shiftLeft_eq]
    omega
  rw [Nat.mod_eq_of_lt hlt]
  rw [Nat.shiftLeft_eq, Nat.shiftLeft_eq, Nat.shiftRight_eq_div_pow]
  have hsplit : v * 2 ^ 8 = v * 2 ^ k * 2 ^ (8 - k) := by
    rw [mul_assoc, ← pow_add]
    congr 2
    omega
  rw [hsplit, Nat.mul_div_cancel _ (Nat.pos_pow_of_pos _ (by norm_num))]

/-- Claim C1, witness: offset 7, write 0xAA, read returns
`(0xAA <<< 7) % 256 = 0x00`. -/
theorem si_shift_register_roundtrip_witness :
    siState0.shift_reg < 256 ∧ 7 < 8 ∧ 0xAA < 256 ∧
    si_port_in (si_port_out 4 0xAA (si_port_out 2 7 siState0)) 3 = (0xAA <<< 7) % 256 :=
  ⟨by decide, by decide, by decide,
   si_shift_register_roundtrip siState0 7 0xAA (by decide) (by decide) (by decide)⟩

/-! ## Claim C2 (code bug) -/

/-- A live state with 1-byte CPU and machine-state sections and 1 RAM byte. -/
def liveC2 : LiveState := { cpuBytes := [0], machBytes := [0], ramBytes := [0] }

/-- A state file with valid magic and version and a complete CPU-state
section holding the byte 7, truncated before the machine-state section. -/
def fileC2 : List Nat := siMagic ++ siVersion1 ++ [7]

/-- Claim C2: the spec (§4.6, §7, §9) requires that a failed
`si_load_state` must not leave live state partially overwritten, but the
code commits the CPU-state section before discovering that the
machine-state read is short: on `fileC2` the load fails (returns -1) yet
the CPU state has been replaced by the file's bytes. -/
theorem si_load_state_not_atomic :
    (si_load_state (some fileC2) liveC2).1 = -1 ∧
    (si_load_state (some fileC2) liveC2).2 ≠ liveC2 ∧
    (si_load_state (some fileC2) liveC2).2.cpuBytes = [7] := by
  decide

/-! ## Claim C3 (confirmed) -/

/-- Claim C3: `si_save_state` followed by `si_load_state` on the resulting
blob succeeds and reproduces the saved CPU-state bytes, machine-state bytes
(which embed the configuration, frame counter and cycle counter) and RAM
contents byte-identically, for any live state the load is performed on
whose struct sections have the (fixed) struct sizes and whose RAM bank has
the fixed size 8192. -/
theorem si_save_load_roundtrip (l l' : LiveState)
    (hcpu : l'.cpuBytes.length = l.cpuBytes.length)
    (hmach : l'.machBytes.length = l.machBytes.length)
    (hram : l.ramBytes.length = 8192) (hram' : l'.ramBytes.length = 8192)
    (hbytes : ∀ x ∈ l.ramBytes, x < 256) :
    si_load_state (some (si_save_state l)) l' = (0, l) := by
  have h1 : si_save_state l
      = siMagic ++ (siVersion1 ++ (l.cpuBytes ++ (l.machBytes ++ l.ramBytes))) := by
    unfold si_save_state
    simp [List.append_assoc]
  have hm1 : readRecord (siMagic ++ (siVersion1 ++ (l.cpuBytes ++ (l.machBytes ++ l.ramBytes)))) 4
      = some (siMagic, siVersion1 ++ (l.cpuBytes ++ (l.machBytes ++ l.ramBytes))) :=
    readRecord_append siMagic _
  have hm2 : readRecord (siVersion1 ++ (l.cpuBytes ++ (l.machBytes ++ l.ramBytes))) 4
      = some (siVersion1, l.cpuBytes ++ (l.machBytes ++ l.ramBytes)) :=
    readRecord_append siVersion1 _
  have hm3 : readRecord (l.cpuBytes ++ (l.machBytes ++ l.ramBytes)) l'.cpuBytes.length
      = some (l.cpuBytes, l.machBytes ++ l.ramBytes) := by
    rw [hcpu]
    exact readRecord_append _ _
  have hm4 : readRecord (l.machBytes ++ l.ramBytes) l'.machBytes.length
      = some (l.machBytes, l.ramBytes) := by
    rw [hmach]
    exact readRecord_append _ _
  have hm5 : loadRamLoop l.ramBytes l'.ramBytes = (true, l.ramBytes) :=
    loadRamLoop_exact _ _ (by omega) hbytes
  unfold si_load_state
  rw [h1]
  simp only [hm1, hm2, hm3, hm4, hm5, ne_eq, not_true_eq_false, if_false, ite_false]
  simp

/-- A concrete live state: 1-byte CPU and machine-state sections and a full
8192-byte RAM image. -/
def liveC3 : LiveState :=
  { cpuBytes := [5], machBytes := [6], ramBytes := List.replicate 8192 3 }

/-- Claim C3, witness: the round trip at a concrete live state. -/
theorem si_save_load_roundtrip_witness :
    liveC3.ramBytes.length = 8192 ∧ (∀ x ∈ liveC3.ramBytes, x < 256) ∧
    si_load_state (some (si_save_state liveC3)) liveC3 = (0, liveC3) :=
  ⟨by simp only [liveC3, List.length_replicate], by
      intro x hx
      simp only [liveC3] at hx
      have := List.eq_of_mem_replicate hx
      omega,
   si_save_load_roundtrip liveC3 liveC3 rfl rfl
     (by simp only [liveC3, List.length_replicate])
     (by simp only [liveC3, List.length_replicate])
     (by
       intro x hx
       simp only [liveC3] at hx
       have := List.eq_of_mem_replicate hx
       omega)⟩

/-! ## Claim C4 (confirmed) -/

/-- Claim C4: for every CPU engine behaviour, `si_step_frame` executes
burst 1 with budget 17066, requests interrupt vector 8, executes burst 2
(from the post-interrupt engine state) with budget 17066, requests
interrupt vector 16 — exactly these four engine calls, in that order, as
the transcript shows — increments the frame counter by exactly 1, adds
exactly the sum of the two bursts' actually-consumed cycles to the cycle
counter, and returns that sum (the counter updates are exact below their
C-type bounds `2^32` and `2^64`). -/
theorem si_step_frame_spec {σ : Type} (E : CpuEngine σ) (c : σ) (s : si_state_t)
    (h1 : s.frame_count + 1 < 2 ^ 32)
    (h2 : s.cycle_count +
        ((E.emulate c 17066).1 +
          (E.emulate (E.causeInt (E.emulate c 17066).2 8) 17066).1) < 2 ^ 64) :
    si_step_frame E c s =
      ((E.emulate c 17066).1 + (E.emulate (E.causeInt (E.emulate c 17066).2 8) 17066).1,
       E.causeInt (E.emulate (E.causeInt (E.emulate c 17066).2 8) 17066).2 16,
       { s with
           frame_count := s.frame_count + 1
           cycle_count := s.cycle_count +
             ((E.emulate c 17066).1 +
               (E.emulate (E.causeInt (E.emulate c 17066).2 8) 17066).1) },
       [SiEvent.emulate 17066 (E.emulate c 17066).1, SiEvent.interrupt 8,
        SiEvent.emulate 17066 (E.emulate (E.causeInt (E.emulate c 17066).2 8) 17066).1,
        SiEvent.interrupt 16]) := by
  simp only [si_step_frame]
  rw [Nat.mod_eq_of_lt h1, Nat.mod_eq_of_lt h2]

/-- A trivial concrete CPU engine (consumes exactly the requested budget,
interrupts do nothing), used to instantiate the frame-scheduler theorem. -/
def unitEngine : CpuEngine Unit where
  emulate := fun _ budget => (budget, ())
  causeInt := fun c _ => c

/-- Claim C4, witness: the frame-scheduler theorem at the trivial engine
and the all-zero emulator state. -/
theorem si_step_frame_spec_witness :
    siState0.frame_count + 1 < 2 ^ 32 ∧
    siState0.cycle_count +
        ((unitEngine.emulate () 17066).1 +
          (unitEngine.emulate (unitEngine.causeInt (unitEngine.emulate () 17066).2 8) 17066).1) < 2 ^ 64 ∧
    si_step_frame unitEngine () siState0 =
      ((unitEngine.emulate () 17066).1 +
        (unitEngine.emulate (unitEngine.causeInt (unitEngine.emulate () 17066).2 8) 17066).1,
       unitEngine.causeInt (unitEngine.emulate (unitEngine.causeInt (unitEngine.emulate () 17066).2 8) 17066).2 16,
       { siState0 with
           frame_count := siState0.frame_count + 1
           cycle_count := siState0.cycle_count +
             ((unitEngine.emulate () 17066).1 +
               (unitEngine.emulate (unitEngine.causeInt (unitEngine.emulate () 17066).2 8) 17066).1) },
       [SiEvent.emulate 17066 (unitEngine.emulate () 17066).1, SiEvent.interrupt 8,
        SiEvent.emulate 17066 (unitEngine.emulate (unitEngine.causeInt (unitEngine.emulate () 17066).2 8) 17066).1,
        SiEvent.interrupt 16]) :=
  ⟨by norm_num [siState0], by norm_num [unitEngine, siState0],
   si_step_frame_spec unitEngine () siState0 (by norm_num [siState0])
     (by norm_num [unitEngine, siState0])⟩

/-! ## Claim C5 (corrected) -/

/-- A RAM image whose player-shot status byte (offset 0x25) is zero while
the player-shot vertical-position byte (offset 0x29) is 5. -/
def memC5 : MemBanks := { rom := [], ram := (List.replicate 48 0).set 0x29 5 }

/-- Claim C5, counterexample: for the player shot the claim fails — the
getter returns the `plyrShotStatus` byte at `0x2025` verbatim, which here
is 0 (inactive) although the vertical-position byte at `0x2029` is
non-zero. -/
theorem si_player_shot_active_counterexample :
    ¬ (((si_get_player_shot memC5).1 ≠ 0) ↔ ((si_get_player_shot memC5).2.2 ≠ 0)) := by
  decide

/-- Claim C5, amended: the three alien-class shot getters (rolling,
plunger, squiggly) return an active byte that is non-zero exactly when the
shot's vertical-position byte in RAM is non-zero; the player-shot getter
instead returns the shot-status byte at `0x2025` verbatim, independent of
the vertical-position byte. -/
theorem si_shot_active_predicates (m : MemBanks) :
    (si_get_player_shot m).1 = readByte m 0x2025 ∧
    ((si_get_rolling_shot m).1 ≠ 0 ↔ readByte m 0x203D ≠ 0) ∧
    ((si_get_plunger_shot m).1 ≠ 0 ↔ readByte m 0x204D ≠ 0) ∧
    ((si_get_squiggly_shot m).1 ≠ 0 ↔ readByte m 0x205D ≠ 0) := by
  refine ⟨rfl, ?_, ?_, ?_⟩ <;>
    · simp only [si_get_rolling_shot, si_get_plunger_shot, si_get_squiggly_shot]
      split <;> simp_all

/-! ## Claim C6 (corrected) -/

/-- Claim C6, counterexample: the claim asserts that after `si_reset` the
interrupt-enable flag is cleared, but `si_reset` ends with `e8080.IE = 1`,
so the flag is set. -/
theorem si_reset_ie_counterexample :
    ¬ ((si_reset { cpu := reset8080 0, si := siState0,
                   mem := { rom := [], ram := [] } }).cpu.ie = false) := by
  decide

/-- Claim C6, amended: immediately after `si_reset` the CPU registers,
flags and stack pointer are cleared, the program counter is the reset
vector `0x0001`, the halted flag is false, the RAM bank is zeroed while
the ROM bank is untouched — but the interrupt-enable flag is SET
(`si_reset` re-enables interrupts after the CPU reset), not cleared. -/
theorem si_reset_spec (st : SiMachine) (hm : st.mem.ram.length = 8192) :
    (si_reset st).cpu.b = 0 ∧ (si_reset st).cpu.c = 0 ∧ (si_reset st).cpu.d = 0 ∧
    (si_reset st).cpu.e = 0 ∧ (si_reset st).cpu.h = 0 ∧ (si_reset st).cpu.l = 0 ∧
    (si_reset st).cpu.sp = 0 ∧ (si_reset st).cpu.pc = 0x0001 ∧
    (si_reset st).cpu.sign = false ∧ (si_reset st).cpu.zero = false ∧
    (si_reset st).cpu.parity = false ∧ (si_reset st).cpu.carry = false ∧
    (si_reset st).cpu.aux = false ∧
    (si_reset st).cpu.halted = false ∧
    (si_reset st).cpu.ie = true ∧
    (si_reset st).mem.ram = List.replicate 8192 0 ∧
    (si_reset st).mem.rom = st.mem.rom := by
  refine ⟨rfl, rfl, rfl, rfl, rfl, rfl, rfl, rfl, rfl, rfl, rfl, rfl, rfl, rfl, rfl, ?_, ?_⟩
  · show (si_clear_ram st.mem).ram = _
    unfold si_clear_ram
    rw [clear_loop_ram 8192 (by omega) st.mem hm]
    have hdro : st.mem.ram.drop 8192 = [] := List.drop_eq_nil_of_le (by omega)
    rw [hdro, List.append_nil]
  · show (si_clear_ram st.mem).rom = _
    unfold si_clear_ram
    exact clear_loop_rom 8192 st.mem

/-- A concrete machine with a one-byte ROM bank and a full RAM bank of
non-zero bytes, for the reset witness. -/
def stC6w : SiMachine :=
  { cpu := reset8080 0, si := siState0,
    mem := { rom := [9], ram := List.replicate 8192 7 } }

/-- Claim C6, witness: the reset theorem at a concrete machine. -/
theorem si_reset_spec_witness :
    stC6w.mem.ram.length = 8192 ∧
    (si_reset stC6w).cpu.pc = 0x0001 ∧ (si_reset stC6w).cpu.halted = false ∧
    (si_reset stC6w).cpu.ie = true ∧
    (si_reset stC6w).mem.ram = List.replicate 8192 0 ∧
    (si_reset stC6w).mem.rom = stC6w.mem.rom := by
  have hm : stC6w.mem.ram.length = 8192 := by
    simp only [stC6w, List.length_replicate]
  obtain ⟨-, -, -, -, -, -, -, hpc, -, -, -, -, -, hhalt, hie, hram, hrom⟩ :=
    si_reset_spec stC6w hm
  exact ⟨hm, hpc, hhalt, hie, hram, hrom⟩

/-! ## Claim C7 (confirmed) -/

set_option maxRecDepth 4096 in
/-- Claim C7: for every byte `b`, after `si_set_input b` the latch equals
`b` masked to the defined button bits 0, 1, 2, 4, 5, 6 with bit 3 forced
set (bit 3 reads true, every other bit `i < 8` reads bit `i` of `b` for the
defined bits and false for bit 7, and the latch is a byte), and
`si_get_input` returns the latch verbatim. -/
theorem si_input_latch_spec (s : si_state_t) (b : Nat) (hb : b < 256) :
    si_get_input (si_set_input b s) = (b &&& 0x77) ||| 0x08 ∧
    si_get_input (si_set_input b s) < 256 ∧
    (si_get_input (si_set_input b s)).testBit 3 = true ∧
    ∀ i < 8, i ≠ 3 →
      (si_get_input (si_set_input b s)).testBit i =
        (decide (i = 0 ∨ i = 1 ∨ i = 2 ∨ i = 4 ∨ i = 5 ∨ i = 6) && b.testBit i) := by
  simp only [si_get_input, si_set_input]
  revert hb
  revert b
  decide

/-- Claim C7, witness: the latch theorem at `b = 0xFF`, with the per-bit
clause instantiated at bits 5 and 7. -/
theorem si_input_latch_spec_witness :
    (0xFF : Nat) < 256 ∧
    si_get_input (si_set_input 0xFF siState0) = ((0xFF : Nat) &&& 0x77) ||| 0x08 ∧
    (5 < 8 ∧ 5 ≠ 3 ∧
      (si_get_input (si_set_input 0xFF siState0)).testBit 5 =
        (decide ((5 : Nat) = 0 ∨ (5 : Nat) = 1 ∨ (5 : Nat) = 2 ∨ (5 : Nat) = 4 ∨
          (5 : Nat) = 5 ∨ (5 : Nat) = 6) && (0xFF : Nat).testBit 5)) ∧
    (7 < 8 ∧ 7 ≠ 3 ∧
      (si_get_input (si_set_input 0xFF siState0)).testBit 7 =
        (decide ((7 : Nat) = 0 ∨ (7 : Nat) = 1 ∨ (7 : Nat) = 2 ∨ (7 : Nat) = 4 ∨
          (7 : Nat) = 5 ∨ (7 : Nat) = 6) && (0xFF : Nat).testBit 7)) :=
  ⟨by decide, (si_input_latch_spec siState0 0xFF (by decide)).1,
   ⟨by decide, by decide,
    (si_input_latch_spec siState0 0xFF (by decide)).2.2.2 5 (by decide) (by decide)⟩,
   ⟨by decide, by decide,
    (si_input_latch_spec siState0 0xFF (by decide)).2.2.2 7 (by decide) (by decide)⟩⟩

/-! ## Claim C8 (confirmed) -/

/-- Claim C8: reported lives are the reserve-ships byte at `0x21FF` plus 1
exactly when the alive-flag byte at `0x20E7` is non-zero; the sum is
reported verbatim when it is at most 6 (the boundary 6 included) and
clamped to 0 only when it exceeds 6. -/
theorem si_get_lives_spec (m : MemBanks) :
    (readByte m 0x21FF + (if readByte m 0x20E7 ≠ 0 then 1 else 0) ≤ 6 →
      si_get_lives m = readByte m 0x21FF + (if readByte m 0x20E7 ≠ 0 then 1 else 0)) ∧
    (6 < readByte m 0x21FF + (if readByte m 0x20E7 ≠ 0 then 1 else 0) →
      si_get_lives m = 0) := by
  simp only [si_get_lives]
  constructor <;> intro h <;> split_ifs at h ⊢ <;> omega

/-- RAM image with reserve ships 2 and alive flag 1. -/
def memC8a : MemBanks :=
  { rom := [], ram := ((List.replicate 512 0).set 0x1FF 2).set 0xE7 1 }

/-- RAM image with reserve ships 6 and alive flag 0 (the boundary sum 6). -/
def memC8b : MemBanks := { rom := [], ram := (List.replicate 512 0).set 0x1FF 6 }

/-- RAM image with reserve ships 6 and alive flag 1 (sum 7, above the
boundary). -/
def memC8c : MemBanks :=
  { rom := [], ram := ((List.replicate 512 0).set 0x1FF 6).set 0xE7 1 }

set_option maxRecDepth 100000 in
/-- Claim C8, witness: reserve 2 alive 1 reports 3; reserve 6 alive 0
reports 6 (the boundary is not clamped); reserve 6 alive 1 (sum 7)
reports 0. -/
theorem si_get_lives_spec_witness :
    (readByte memC8a 0x21FF + (if readByte memC8a 0x20E7 ≠ 0 then 1 else 0) ≤ 6 ∧
      si_get_lives memC8a = readByte memC8a 0x21FF + (if readByte memC8a 0x20E7 ≠ 0 then 1 else 0) ∧
      si_get_lives memC8a = 3) ∧
    (readByte memC8b 0x21FF + (if readByte memC8b 0x20E7 ≠ 0 then 1 else 0) ≤ 6 ∧
      si_get_lives memC8b = readByte memC8b 0x21FF + (if readByte memC8b 0x20E7 ≠ 0 then 1 else 0) ∧
      si_get_lives memC8b = 6) ∧
    (6 < readByte memC8c 0x21FF + (if readByte memC8c 0x20E7 ≠ 0 then 1 else 0) ∧
      si_get_lives memC8c = 0) :=
  ⟨⟨by decide, (si_get_lives_spec memC8a).1 (by decide), by decide⟩,
   ⟨by decide, (si_get_lives_spec memC8b).1 (by decide), by decide⟩,
   ⟨by decide, (si_get_lives_spec memC8c).2 (by decide)⟩⟩

/-! ## Claim C9 (confirmed) -/

/-- Claim C9: `si_set_speed m` stores `m` as the speed multiplier, sets the
uncapped flag exactly when `m = 0`, and changes nothing else — for non-zero
`m` the uncapped flag and every other field keep their old values. -/
theorem si_set_speed_spec (s : si_state_t) (m : ℚ) :
    si_set_speed m s =
      { s with config := { s.config with
          speed_multiplier := m
          uncapped := if m = 0 then true else s.config.uncapped } } ∧
    ((si_set_speed m s).config.uncapped = true ↔ (m = 0 ∨ s.config.uncapped = true)) := by
  unfold si_set_speed
  by_cases h : m = 0 <;> simp [h]

/-! ## Claim C10 (confirmed) -/

/-- Claim C10: when the `saucerActive` byte at `0x2084` is zero,
`si_get_ufo_active` returns false and leaves the caller's x/y locations
with their prior contents; when it is non-zero it returns true and writes
the UFO x byte from `0x207C` and y byte from `0x207B` into them. -/
theorem si_get_ufo_active_spec (m : MemBanks) (x0 y0 : Nat) :
    (readByte m 0x2084 = 0 → si_get_ufo_active m x0 y0 = (false, x0, y0)) ∧
    (readByte m 0x2084 ≠ 0 →
      si_get_ufo_active m x0 y0 = (true, readByte m 0x207C, readByte m 0x207B)) := by
  unfold si_get_ufo_active
  constructor <;> intro h <;> simp [h]

/-- RAM image with the UFO inactive. -/
def memC10a : MemBanks := { rom := [], ram := List.replicate 0x90 0 }

/-- RAM image with the UFO active at x = 33, y = 44. -/
def memC10b : MemBanks :=
  { rom := [], ram := (((List.replicate 0x90 0).set 0x84 1).set 0x7C 33).set 0x7B 44 }

set_option maxRecDepth 100000 in
/-- Claim C10, witness: inactive leaves the caller's locations 11 and 22
untouched; active overwrites them with 33 and 44. -/
theorem si_get_ufo_active_spec_witness :
    (readByte memC10a 0x2084 = 0 ∧
      si_get_ufo_active memC10a 11 22 = (false, 11, 22)) ∧
    (readByte memC10b 0x2084 ≠ 0 ∧
      si_get_ufo_active memC10b 11 22 = (true, readByte memC10b 0x207C, readByte memC10b 0x207B) ∧
      readByte memC10b 0x207C = 33 ∧ readByte memC10b 0x207B = 44) :=
  ⟨⟨by decide, (si_get_ufo_active_spec memC10a 11 22).1 (by decide)⟩,
   ⟨by decide, (si_get_ufo_active_spec memC10b 11 22).2 (by decide),
    by decide, by decide⟩⟩

end SpaceInvaders
